import Mathlib

set_option maxRecDepth 8192

/-!
Verification of the conversation-pipeline core of the `wwhd` backend
(`backend/agents/{safety,orchestrator,interpreter,librarian}.py`).

The Python code is shallowly embedded: each agent method becomes a pure
Lean function over an explicit state record.  External collaborators
(the generative-model client and the vector-store client) are passed in
as explicit oracle arguments of `Except`-valued function type, so that
"the call raised" is `Except.error` and "the call returned text" is
`Except.ok`.  Python strings are Lean `String`s; `str.lower()` is
`pyLower` (the keyword tables are ASCII); the `in` substring
operator is `pySubstr`; a possibly-missing dict key is an `Option`.
Python floats are modelled as `ℚ` (the decimal literals involved are
exact and no claim depends on binary rounding).
-/

/-- The Python substring test `needle in hay` on lists of characters:
true iff `needle` occurs contiguously inside `hay` (the empty needle
always matches, as in Python). -/
def listInfix (needle : List Char) : List Char → Bool
  | [] => needle.isEmpty
  | c :: cs => needle.isPrefixOf (c :: cs) || listInfix needle cs

/-- Python `needle in hay` for strings. -/
def pySubstr (needle hay : String) : Bool :=
  listInfix needle.data hay.data

/-- Python `str.lower()` (the strings involved are ASCII, where
`Char.toLower` agrees with Python). -/
def pyLower (s : String) : String :=
  String.mk (s.data.map Char.toLower)

/-- Python `str.startswith(pat)`. -/
def pyStartsWith (pat s : String) : Bool :=
  pat.data.isPrefixOf s.data

/-- Fuel-driven worker for `pyReplace`; the fuel is the haystack length,
which suffices because every step consumes at least one character. -/
def pyReplaceGo (pat rep : List Char) : List Char → Nat → List Char
  | s, 0 => s
  | [], _ => []
  | c :: cs, fuel + 1 =>
    if pat.isPrefixOf (c :: cs) then
      rep ++ pyReplaceGo pat rep ((c :: cs).drop pat.length) fuel
    else
      c :: pyReplaceGo pat rep cs fuel

/-- Python `s.replace(pat, rep)` for a non-empty pattern (the source
only uses the pattern "documents_"): replace every non-overlapping
occurrence, scanning left to right. -/
def pyReplace (s pat rep : String) : String :=
  if pat = "" then s
  else String.mk (pyReplaceGo pat.data rep.data s.data s.data.length)

/-- Characters removed by Python `str.strip()` with no argument. -/
def pyWhitespace (c : Char) : Bool :=
  c = ' ' || c = '\t' || c = '\n' || c = '\r' || c = '\x0b' || c = '\x0c'

/-- Python `str.strip()` on a character list. -/
def pyStrip (cs : List Char) : List Char :=
  ((cs.dropWhile pyWhitespace).reverse.dropWhile pyWhitespace).reverse

/-- Python `str.title()`: an alphabetic character is uppercased when the
previous character is not alphabetic and lowercased otherwise (ASCII). -/
def pyTitleGo : List Char → Bool → List Char
  | [], _ => []
  | c :: cs, prevAlpha =>
    (if c.isAlpha then (if prevAlpha then c.toLower else c.toUpper) else c)
      :: pyTitleGo cs c.isAlpha

/-- Python `str.title()`. -/
def pyTitle (s : String) : String :=
  String.mk (pyTitleGo s.data false)

/-! ## Safety gate (`backend/agents/safety.py`)

`SafetyAgent.safety_keywords`, `SafetyAgent.disclaimers` and the
fallback strings, transcribed verbatim (`\x27` is the apostrophe). -/

def harmfulKeywords : List String :=
  ["suicide", "self-harm", "kill", "die", "death", "violence", "abuse",
   "illegal", "drugs", "weapon", "hate", "discrimination"]

def medicalKeywords : List String :=
  ["diagnose", "diagnosis", "disease", "illness", "symptoms", "cure", "treatment",
   "medicine", "medication", "prescription", "doctor", "medical", "health condition",
   "pain", "sick", "fever", "infection", "cancer", "diabetes", "heart disease"]

def financialKeywords : List String :=
  ["invest", "investment", "stocks", "bonds", "portfolio", "financial advice",
   "buy", "sell", "trading", "market", "profit", "loss", "tax", "retirement",
   "savings", "loan", "mortgage", "insurance"]

def legalKeywords : List String :=
  ["legal advice", "lawsuit", "contract", "law", "legal", "attorney", "lawyer",
   "court", "judge", "sue", "rights", "violation", "illegal", "criminal"]

def exerciseKeywords : List String :=
  ["exercise", "workout", "training", "martial arts", "shaolin", "kung fu",
   "physical practice", "movement", "stretching", "qi gong", "meditation",
   "breathing", "posture", "form", "routine", "practice"]

def medicalAdviceIndicators : List String :=
  ["you should", "i recommend", "take this", "stop taking"]

def financialAdviceIndicators : List String :=
  ["you should invest", "buy", "sell", "i recommend investing"]

def legalAdviceIndicators : List String :=
  ["you should sue", "file a lawsuit", "this is illegal", "your rights are"]

def exerciseAdviceIndicators : List String :=
  ["you should do", "practice", "try this", "start with"]

def dismissivePhrases : List String :=
  ["that\x27s stupid", "obviously", "you\x27re wrong", "that\x27s ridiculous",
   "don\x27t be silly", "that\x27s dumb", "you should know"]

def medicalDisclaimer : String :=
  "📝 Note: This information is based on Traditional Chinese Medicine principles and general wellness practices. It is not intended as medical advice. Always consult with qualified healthcare professionals for medical conditions or before making significant changes to your health regimen."

def financialDisclaimer : String :=
  "📝 Note: This content discusses general financial principles and strategies. It is not personalized financial advice. Investment carries risks, and you should consult with qualified financial advisors before making investment decisions."

def legalDisclaimer : String :=
  "📝 Note: This information is for educational purposes only and does not constitute legal advice. For legal matters, please consult with a qualified attorney who can address your specific situation."

def exerciseDisclaimer : String :=
  "📝 Note: These exercises and physical practices should be approached gradually and with proper form. Consider your current fitness level and any health conditions. Consult with healthcare providers before beginning new exercise programs, especially if you have pre-existing conditions."

/-- `_get_safe_fallback` branch for a reason containing "harmful". -/
def harmfulFallback : String :=
  "I understand you\x27re looking for guidance, but I\x27m not able to provide advice on that topic. If you\x27re struggling with difficult thoughts, please reach out to a mental health professional or crisis helpline for support."

/-- `_get_safe_fallback` branch for a reason containing "medical". -/
def medicalFallback : String :=
  "I appreciate your question about health matters. While I can share general wellness wisdom, I\x27m not qualified to provide medical advice. Please consult with healthcare professionals for any health concerns."

/-- `_get_safe_fallback` default branch. -/
def genericFallback : String :=
  "I apologize, but I\x27m not able to provide guidance on that particular topic. Is there something else I can help you with today?"

/-- Medical disclaimer trigger: a medical topic keyword and a medical
advice indicator are both substrings of the lowercased response. -/
def medicalTriggers (low : String) : Bool :=
  medicalKeywords.any (fun k => pySubstr k low) &&
    medicalAdviceIndicators.any (fun i => pySubstr i low)

def financialTriggers (low : String) : Bool :=
  financialKeywords.any (fun k => pySubstr k low) &&
    financialAdviceIndicators.any (fun i => pySubstr i low)

def legalTriggers (low : String) : Bool :=
  legalKeywords.any (fun k => pySubstr k low) &&
    legalAdviceIndicators.any (fun i => pySubstr i low)

def exerciseTriggers (low : String) : Bool :=
  exerciseKeywords.any (fun k => pySubstr k low) &&
    exerciseAdviceIndicators.any (fun i => pySubstr i low)

/-- The disclaimer type `_detect_violations` ends up with: each domain
check overwrites `violations["type"]`, so the last triggering domain in
the order medical, financial, legal, exercise survives. -/
def lastTriggered (low : String) : Option String :=
  if exerciseTriggers low then some "exercise"
  else if legalTriggers low then some "legal"
  else if financialTriggers low then some "financial"
  else if medicalTriggers low then some "medical"
  else none

/-- `SafetyAgent._check_tone`. -/
def check_tone (response : String) : Bool :=
  dismissivePhrases.any (fun p => pySubstr p (pyLower response))

/-- The violations dict built by `SafetyAgent._detect_violations`. -/
structure Violations where
  block_response : Bool
  needs_disclaimer : Bool
  tone_adjustment : Bool
  vtype : Option String
  reason : Option String
deriving DecidableEq, Repr

/-- `SafetyAgent._detect_violations`: the harmful scan returns early with
a `harmful_content_<keyword>` reason; otherwise the four disclaimer
domains are checked in sequence (each overwriting the type) and the tone
scan runs last. -/
def detect_violations (response : String) : Violations :=
  let low := pyLower response
  match harmfulKeywords.find? (fun k => pySubstr k low) with
  | some k =>
    { block_response := true, needs_disclaimer := false, tone_adjustment := false,
      vtype := none, reason := some ("harmful_content_" ++ k) }
  | none =>
    let t := lastTriggered low
    { block_response := false, needs_disclaimer := t.isSome,
      tone_adjustment := check_tone response, vtype := t,
      reason := if check_tone response then some "tone_adjustment_needed" else none }

/-- `SafetyAgent._get_disclaimer` via the `disclaimers` dict
(`dict.get(violation_type, "")`). -/
def get_disclaimer (t : Option String) : String :=
  match t with
  | some "medical" => medicalDisclaimer
  | some "financial" => financialDisclaimer
  | some "legal" => legalDisclaimer
  | some "exercise" => exerciseDisclaimer
  | _ => ""

/-- `SafetyAgent._get_safe_fallback`. -/
def get_safe_fallback (v : Violations) : String :=
  let reason := v.reason.getD "content_policy"
  if pySubstr "harmful" reason then harmfulFallback
  else if pySubstr "medical" reason then medicalFallback
  else genericFallback

/-- Python `f"\x7bx\x7d"` on the optional type tag (`None` prints as "None"). -/
def pyOptStr (t : Option String) : String :=
  match t with
  | some s => s
  | none => "None"

/-- A chat message handed to the generative-model oracle. -/
inductive Role
  | system
  | human
deriving DecidableEq, Repr

abbrev Msg := Role × String

/-- Generative-model oracle: `Except.error` models a raised exception. -/
abbrev LLM := List Msg → Except String String

/-- The system prompt of `SafetyAgent._adjust_tone`. -/
def toneSystemPrompt : String :=
  "\nPlease adjust the tone of the following response to be more warm, respectful, and approachable while maintaining all the factual content. Make it sound like Herman Siu\x27s compassionate and wise voice.\n\nGuidelines:\n- Remove any dismissive or harsh language\n- Add warmth and empathy\n- Maintain all factual information\n- Keep the practical advice\n- Make it conversational and caring\n                "

/-- `SafetyAgent._adjust_tone`: one model call; on failure the original
response is returned. -/
def adjust_tone (llm : LLM) (response : String) : String :=
  match llm [(Role.system, toneSystemPrompt),
             (Role.human, "Original response: " ++ response)] with
  | Except.ok c => c
  | Except.error _ => response

/-- The slice of `ConversationState` read or written by
`SafetyAgent.check_safety`.  `final_response = none` models the
`final_response` key being absent from the state dict (dict access then
raises `KeyError`, caught by the `except` clause of the method). -/
structure SState where
  final_response : Option String
  safety_flags : List String
  current_node : String
  next_node : Option String
  status : String
  error : Option String
deriving DecidableEq, Repr

/-- `SafetyAgent.check_safety`.  The `except` branch only sets
`safety_flags` and `error`; every other branch ends by setting
`current_node = "safety"`, `next_node = None`, `status = "complete"`. -/
def check_safety (llm : LLM) (state : SState) : SState :=
  match state.final_response with
  | none =>
    { state with safety_flags := ["safety_check_failed"],
                 error := some "Safety check failed: \x27final_response\x27" }
  | some response =>
    if response = "" then
      { state with safety_flags := ["empty_response"],
                   current_node := "safety", next_node := none, status := "complete" }
    else
      let v := detect_violations response
      let state1 :=
        if v.block_response then
          { state with final_response := some (get_safe_fallback v),
                       safety_flags := ["blocked", v.reason.getD "content_blocked"] }
        else if v.needs_disclaimer then
          let d := get_disclaimer v.vtype
          { state with
              final_response := some (if d ≠ "" then response ++ "\n\n" ++ d else response),
              safety_flags := ["disclaimer_added_" ++ pyOptStr v.vtype] }
        else if v.tone_adjustment then
          { state with final_response := some (adjust_tone llm response),
                       safety_flags := ["tone_adjusted"] }
        else
          { state with safety_flags := ["safe"] }
      { state1 with current_node := "safety", next_node := none, status := "complete" }

/-! ## Router (`backend/agents/orchestrator.py`, `RouterAgent`) -/

/-- `RouterAgent.namespace_map` in insertion order. -/
def namespaceMap : List (String × List String) :=
  [("relationships", ["dating", "marriage", "family", "friendship", "love", "communication", "interpersonal"]),
   ("money", ["investing", "savings", "wealth", "finance", "budget", "financial", "prosperity"]),
   ("business", ["entrepreneurship", "startup", "management", "leadership", "career", "work"]),
   ("feng_shui", ["energy", "space", "harmony", "arrangement", "chi", "home", "environment"]),
   ("diet_food", ["nutrition", "eating", "health", "cooking", "meal", "diet", "food"]),
   ("exercise_martial_arts", ["training", "fitness", "shaolin", "kungfu", "workout", "martial", "exercise"]),
   ("meditation", ["mindfulness", "breathing", "zen", "peace", "calm", "spiritual", "meditation"]),
   ("general", [])]

def multiNamespaceKeywords : List String :=
  ["balance", "holistic", "life", "wellness"]

def confidenceThreshold : ℚ := 7/10

def maxNamespaces : Nat := 3

/-- True when the message contains a "holistic" keyword, i.e. the first
branch of `_select_namespaces` fires. -/
def holisticHit (message : String) : Bool :=
  multiNamespaceKeywords.any (fun k => pySubstr k (pyLower message))

/-- First match of the regex `Intent: (.+)` / `Confidence: ([0-9.]+)`:
scan left to right for the literal `pat` followed by a non-empty maximal
run of characters accepted by `ok`. -/
def searchRun (pat : List Char) (ok : Char → Bool) : List Char → Option (List Char)
  | [] => none
  | c :: cs =>
    if pat.isPrefixOf (c :: cs) then
      let run := ((c :: cs).drop pat.length).takeWhile ok
      if run.isEmpty then searchRun pat ok cs else some run
    else searchRun pat ok cs

/-- `re.search(r"Intent: (.+)", content)`: `.` matches anything but a
newline. -/
def intentSearch (content : String) : Option (List Char) :=
  searchRun "Intent: ".data (fun c => c ≠ '\n') content.data

/-- `re.search(r"Confidence: ([0-9.]+)", content)`. -/
def confSearch (content : String) : Option (List Char) :=
  searchRun "Confidence: ".data (fun c => c.isDigit || c = '.') content.data

/-- Decimal digits to a natural number. -/
def natOfDigits (cs : List Char) : Nat :=
  cs.foldl (fun n c => 10 * n + (c.toNat - '0'.toNat)) 0

/-- Python `float()` on a match of `[0-9.]+`: it succeeds exactly when
the run holds at least one digit and at most one dot (`ValueError`
otherwise, e.g. on `"."` or `"1.2.3"`). -/
def pyFloat (cs : List Char) : Option ℚ :=
  if cs.count '.' ≤ 1 && cs.any Char.isDigit then
    let intPart := cs.takeWhile (fun c => c ≠ '.')
    let fracPart := (cs.dropWhile (fun c => c ≠ '.')).drop 1
    some ((natOfDigits intPart : ℚ) + (natOfDigits fracPart : ℚ) / (10 : ℚ) ^ fracPart.length)
  else none

/-- `RouterAgent._parse_response`.  When `float()` raises, the `except`
clause discards the already-parsed intent and returns
`("general", 0.5)`; a missing `Intent:`/`Confidence:` line falls back to
the same defaults field-wise. -/
def parse_response (content : String) : String × ℚ :=
  let intent :=
    match intentSearch content with
    | some run => String.mk (pyStrip run)
    | none => "general"
  match confSearch content with
  | none => (intent, 1/2)
  | some run =>
    match pyFloat run with
    | some q => (intent, q)
    | none => ("general", 1/2)

/-- `RouterAgent._select_namespaces`. -/
def select_namespaces (intent : String) (confidence : ℚ) (message : String) : List String :=
  let low := pyLower message
  if multiNamespaceKeywords.any (fun k => pySubstr k low) then
    ["meditation", "relationships", "general"]
  else
    let selected :=
      if confidenceThreshold ≤ confidence then
        (namespaceMap.filter (fun p =>
          p.1 ≠ "general" &&
            (p.2.contains (pyLower intent) || p.2.any (fun kw => pySubstr kw low)))).map Prod.fst
      else []
    let selected := if selected.isEmpty then ["general"] else selected
    selected.take maxNamespaces

/-- The slice of `ConversationState` read or written by
`RouterAgent.route`. -/
structure RState where
  user_message : String
  intent : Option String
  confidence : ℚ
  selected_namespaces : List String
  current_node : String
  next_node : Option String
deriving DecidableEq, Repr

/-- `RouterAgent.route`.  The method body has no `try`: the routing
model call (`llmReply`) raising propagates out of `route`; only the
parse step is protected.  `next_node` is `"librarian"` iff the namespace
list is non-empty and does not contain `"general"`. -/
def route (llmReply : Except String String) (state : RState) : Except String RState :=
  match llmReply with
  | Except.error e => Except.error e
  | Except.ok content =>
    let p := parse_response content
    let namespaces := select_namespaces p.1 p.2 state.user_message
    Except.ok
      { state with
          intent := some p.1, confidence := p.2, selected_namespaces := namespaces,
          current_node := "router",
          next_node := some (if !namespaces.isEmpty && !namespaces.contains "general"
                             then "librarian" else "interpreter") }

/-! ## Chunks and citations (`backend/agents/{librarian,interpreter}.py`) -/

/-- `Chunk.metadata` fields the citation/context code reads.  `none`
models an absent dict key (so `meta.get(k)` is falsy and
`meta.get(k, d)` yields `d`); `some ""` is a present-but-empty value. -/
structure ChunkMeta where
  source_title : Option String
  source_url : Option String
  youtube_url : Option String
  timestamp : Option String
deriving DecidableEq, Repr

/-- A retrieved chunk (`{text, score, metadata}`). -/
structure Chunk where
  text : String
  score : ℚ
  metadata : ChunkMeta
deriving DecidableEq, Repr

/-- Python truthiness of `meta.get(key)`. -/
def truthy (o : Option String) : Bool :=
  match o with
  | some s => s ≠ ""
  | none => false

/-- Citation record built by `InterpreterAgent._extract_citations`:
four fields, with `url` preferring the YouTube URL. -/
structure Citation4 where
  title : String
  url : String
  youtube_url : String
  timestamp : String
deriving DecidableEq, Repr

/-- Citation record built by `LibrarianAgent._extract_citations`:
three fields, `url` always the source URL, no `youtube_url` field. -/
structure Citation3 where
  title : String
  url : String
  timestamp : String
deriving DecidableEq, Repr

/-- `InterpreterAgent._extract_citations`: keep chunks with a truthy
`source_title`, prefer `youtube_url` as `url`, and append only
citations not already present (`citation not in citations`). -/
def interp_extract_citations (chunks : List Chunk) : List Citation4 :=
  chunks.foldl
    (fun citations c =>
      let meta := c.metadata
      if truthy meta.source_title then
        let yt := meta.youtube_url.getD ""
        let cit : Citation4 :=
          { title := meta.source_title.getD "",
            url := if yt ≠ "" then yt else meta.source_url.getD "",
            youtube_url := yt,
            timestamp := meta.timestamp.getD "" }
        if cit ∈ citations then citations else citations ++ [cit]
      else citations)
    []

/-- `LibrarianAgent._extract_citations`: keep chunks with a truthy
`source_title`; the citation is `{title, url, timestamp}` with `url`
taken from `source_url` only. -/
def libr_extract_citations (chunks : List Chunk) : List Citation3 :=
  chunks.foldl
    (fun citations c =>
      let meta := c.metadata
      if truthy meta.source_title then
        let cit : Citation3 :=
          { title := meta.source_title.getD "",
            url := meta.source_url.getD "",
            timestamp := meta.timestamp.getD "" }
        if cit ∈ citations then citations else citations ++ [cit]
      else citations)
    []

/-! ## Interpreter (`backend/agents/interpreter.py`) -/

/-- The exact sentence the strict-grounding prompt orders the model to
return when the context is missing or irrelevant. -/
def noInfoSentence : String :=
  "I don\x27t have specific information about that topic in my knowledge base. Could you ask about something else or try rephrasing your question?"

/-- The `_build_context` result for an empty chunk list. -/
def noContextMarker : String :=
  "No relevant context found in the knowledge base."

/-- One numbered context block of `InterpreterAgent._build_context`. -/
def contextPart (i : Nat) (chunk : Chunk) : String :=
  let meta := chunk.metadata
  let sourceInfo := meta.source_title.getD "Unknown Source"
  let sourceInfo :=
    if truthy meta.timestamp then sourceInfo ++ " (" ++ meta.timestamp.getD "" ++ ")"
    else sourceInfo
  let yt := meta.youtube_url.getD ""
  let sourceInfo :=
    if yt ≠ "" then
      let withUrl := sourceInfo ++ "\nYouTube: " ++ yt
      if truthy meta.timestamp then
        withUrl ++ "\nUse this format for YouTube links: [📹 Watch: \""
          ++ meta.source_title.getD "Video" ++ "\" (" ++ meta.timestamp.getD ""
          ++ ")](" ++ yt ++ "&t=XXXs) where XXX is timestamp in seconds"
      else withUrl
    else sourceInfo
  "[" ++ toString i ++ "] " ++ chunk.text ++ "\nSource: " ++ sourceInfo

/-- `InterpreterAgent._build_context`. -/
def build_context (chunks : List Chunk) : String :=
  if chunks.isEmpty then noContextMarker
  else
    String.intercalate "\n\n"
      ((List.enumFrom 1 chunks).map (fun p => contextPart p.1 p.2))

/-- `InterpreterAgent.system_prompt_template` up to the `{context}`
placeholder. -/
def sysPromptPre : String :=
  "You are Herman Siu, but you can ONLY respond based on information contained in the provided knowledge base context.\n\n"
  ++ "🚨 CRITICAL RULES - NEVER VIOLATE THESE 🚨\n"
  ++ "1. **ONLY USE PROVIDED CONTEXT**: You cannot access any knowledge, wisdom, or information outside what is provided in the context below.\n"
  ++ "2. **NO HALLUCINATION**: Never create answers that aren\x27t directly supported by the context.\n"
  ++ "3. **MANDATORY KNOWLEDGE BASE CHECK**: If the context doesn\x27t contain specific, relevant information to answer the question, you MUST respond EXACTLY with: \"" ++ noInfoSentence ++ "\"\n"
  ++ "4. **QUOTE DIRECTLY**: Always start your response by directly quoting the relevant text from the context.\n"
  ++ "5. **NO EXTERNAL KNOWLEDGE**: You do not have access to any wisdom, teachings, or information beyond what is explicitly provided in the context below.\n\n"
  ++ "⚠️ WARNING: If you provide information not found in the context, you are hallucinating and failing your core function.\n\n"
  ++ "WHEN TO USE KNOWLEDGE BASE (Only respond if context contains):\n"
  ++ "- Direct information that answers the user\x27s specific question\n"
  ++ "- Relevant teachings, concepts, or wisdom that address the query\n"
  ++ "- Specific facts or guidance related to the topic\n\n"
  ++ "HERMAN\x27S AUTHENTIC VOICE GUIDELINES:\n"
  ++ "- Use \"compassion\" never \"empathy\"\n"
  ++ "- Be direct and practical, not overly philosophical\n"
  ++ "- Ground advice in real experience and results\n"
  ++ "- Emphasize personal responsibility and action\n"
  ++ "- Use simple, powerful language\n"
  ++ "- Draw from martial arts, business, and life experience\n"
  ++ "- Focus on discipline, balance, and continuous improvement\n\n"
  ++ "RESPONSE STRUCTURE (ONLY when context is relevant):\n"
  ++ "1. **DIRECT QUOTES**: Start with exact quotes from sources that answer the question\n"
  ++ "2. **HERMAN\x27S WISDOM**: Interpret and expand based ONLY on the provided context, using his authentic voice\n"
  ++ "3. **CITATIONS**: Include [Source 1], [Source 2] references\n"
  ++ "4. **YOUTUBE LINKS**: When quoting from video transcripts, create clickable links using this format:\n"
  ++ "   - If source has YouTube URL and timestamp: [📹 Watch: \"Video Title\" (MM:SS)](youtube_url&t=XXXs)\n"
  ++ "   - If source has YouTube URL but no timestamp: [📹 Watch: \"Video Title\"](youtube_url)\n"
  ++ "   - Replace XXX with timestamp in seconds (e.g., 12:45 becomes &t=765s)\n"
  ++ "   - Always open links in new tab by using markdown link format\n\n"
  ++ "MANDATORY SAFETY CHECK:\n"
  ++ "- Empty context = \"I don\x27t have specific information about that topic in my knowledge base.\"\n"
  ++ "- Irrelevant context = \"I don\x27t have specific information about that topic in my knowledge base.\"\n"
  ++ "- Context doesn\x27t match question = \"I don\x27t have specific information about that topic in my knowledge base.\"\n\n"
  ++ "Context from your knowledge base:\n"

/-- `InterpreterAgent.system_prompt_template` after the `{context}`
placeholder. -/
def sysPromptPost : String :=
  "\n\nREMEMBER: If you cannot find a direct, relevant answer in the context above, do NOT attempt to answer. Always admit when you don\x27t have the information rather than creating content."

/-- `InterpreterAgent._build_interpretation_prompt`. -/
def build_interpretation_prompt (question context : String) : List Msg :=
  [(Role.system, sysPromptPre ++ context ++ sysPromptPost),
   (Role.human,
    "Question: " ++ question
      ++ "\n\nPlease provide your wisdom and guidance on this question, drawing from the context provided above. Remember to cite sources using [Source X] format and maintain your authentic voice.")]

/-- `InterpreterAgent._is_knowledge_base_query`: fixed substrings of the
lowercased question. -/
def knowledgeBaseKeywords : List String :=
  ["what documents",
   "what do you have access to",
   "what\x27s in your knowledge base",
   "what information do you have",
   "list documents",
   "show me what",
   "what topics",
   "what can you tell me about"]

def is_knowledge_base_query (question : String) : Bool :=
  knowledgeBaseKeywords.any (fun k => pySubstr k (pyLower question))

/-- A point returned by the vector-store `scroll` call, with the payload
fields `_handle_knowledge_base_query` reads. -/
structure KBPoint where
  source_title : Option String
  title : Option String
deriving DecidableEq, Repr

/-- One collection of the vector store: its name and the outcome of
scrolling it (`Except.error` models the per-collection `scroll` call
raising, which the code skips with `continue`). -/
structure KBCollection where
  name : String
  scroll : Except String (List KBPoint)
deriving Repr

/-- Vector-store oracle for the knowledge-base listing: `Except.error`
models `get_collections` (or client construction) raising. -/
abbrev KBResult := Except String (List KBCollection)

/-- The slice of `ConversationState` read or written by
`InterpreterAgent.interpret`. -/
structure IState where
  user_message : String
  retrieved_chunks : List Chunk
  response_tokens : List String
  final_response : String
  citations : List Citation4
  current_node : String
  next_node : Option String
  error : Option String
deriving Repr

/-- `point.payload.get("source_title") or point.payload.get("title", "Unknown")`. -/
def kbPointTitle (p : KBPoint) : String :=
  match p.source_title with
  | some s => if s ≠ "" then s else p.title.getD "Unknown"
  | none => p.title.getD "Unknown"

/-- The summary entries one collection contributes in
`_handle_knowledge_base_query` (empty on a failed scroll or an empty
sample). -/
def kbCollectionSummary (col : KBCollection) : List String :=
  match col.scroll with
  | Except.error _ => []
  | Except.ok samplePoints =>
    if samplePoints.isEmpty then []
    else
      let ns := pyReplace col.name "documents_" ""
      let titles := samplePoints.foldl
        (fun ts p =>
          let t := kbPointTitle p
          if t ∈ ts then ts else ts ++ [t]) []
      let entry := "**" ++ pyTitle ns ++ " Documents:**\n"
        ++ String.intercalate "\n" ((titles.take 3).map (fun t => "- " ++ t))
      if samplePoints.length > 3 then
        [entry, "  ...and " ++ toString (samplePoints.length - 3) ++ " more documents"]
      else [entry]

/-- `InterpreterAgent._handle_knowledge_base_query`.  All branches set
`citations = []`; only the full-summary branch also sets
`current_node`/`next_node` (the early no-collections return and the
`except` clause leave them untouched). -/
def handle_knowledge_base_query (kb : KBResult) (state : IState) : IState :=
  match kb with
  | Except.error _ =>
    { state with
        final_response := "I have a knowledge base with various documents and teachings, but I\x27m having trouble accessing the full list right now. Please ask me about specific topics you\x27re interested in.",
        citations := [] }
  | Except.ok collections =>
    let documentCollections :=
      collections.filter (fun c => pyStartsWith "documents_" c.name)
    if documentCollections.isEmpty then
      { state with
          final_response := "I currently don\x27t have access to any documents in my knowledge base.",
          citations := [] }
    else
      let knowledgeSummary :=
        documentCollections.foldl (fun acc col => acc ++ kbCollectionSummary col) []
      let response :=
        if !knowledgeSummary.isEmpty then
          "Here\x27s what I have access to in my knowledge base:\n\n"
            ++ String.intercalate "\n\n" knowledgeSummary
            ++ "\n\nFeel free to ask me questions about any of these topics, and I\x27ll provide guidance based on the specific content in my knowledge base."
        else
          "I have access to a knowledge base, but I\x27m having trouble retrieving the specific document list right now. Please ask me about any topics you\x27re interested in, and I\x27ll see what information I can provide."
      { state with
          final_response := response, citations := [],
          current_node := "interpreter", next_node := some "safety" }

/-- The fixed apology set by the `except` clause of `interpret`. -/
def interpretErrorFallback : String :=
  "I apologize, but I\x27m having trouble generating a response right now. Please try rephrasing your question."

/-- `InterpreterAgent.interpret`.  A knowledge-base meta-question
short-circuits before context construction; otherwise the grounding
prompt is built from the retrieved chunks and the model reply is the
final response (the `streaming` flag additionally records the reply in
`response_tokens`); a model failure yields the fixed apology with empty
citations. -/
def interpret (llm : LLM) (kb : KBResult) (streaming : Bool) (state : IState) : IState :=
  if is_knowledge_base_query state.user_message then
    handle_knowledge_base_query kb state
  else
    let context := build_context state.retrieved_chunks
    let prompt := build_interpretation_prompt state.user_message context
    match llm prompt with
    | Except.error e =>
      { state with
          final_response := interpretErrorFallback,
          citations := [],
          error := some ("Interpretation failed: " ++ e) }
    | Except.ok content =>
      let state1 :=
        if streaming then
          { state with response_tokens := [content], final_response := content }
        else
          { state with final_response := content }
      { state1 with
          citations := interp_extract_citations state.retrieved_chunks,
          current_node := "interpreter", next_node := some "safety" }

/-! ## Helper lemmas -/

/-- A `lastTriggered` hit is one of the four disclaimer domains. -/
lemma lastTriggered_cases {low t : String} (h : lastTriggered low = some t) :
    t = "exercise" ∨ t = "legal" ∨ t = "financial" ∨ t = "medical" := by
  unfold lastTriggered at h
  split_ifs at h <;> simp_all

/-- Every domain disclaimer template is non-empty. -/
lemma get_disclaimer_ne_empty {low t : String} (h : lastTriggered low = some t) :
    get_disclaimer (some t) ≠ "" := by
  rcases lastTriggered_cases h with rfl | rfl | rfl | rfl <;> decide

/-- Evaluation of `check_safety` on the disclaimer branch: no harmful
keyword, some domain triggered. -/
lemma check_safety_disclaimer_eq (llm : LLM) (st : SState) (r t : String)
    (hfr : st.final_response = some r) (hne : r ≠ "")
    (hharm : harmfulKeywords.find? (fun k => pySubstr k (pyLower r)) = none)
    (ht : lastTriggered (pyLower r) = some t) :
    check_safety llm st =
      { st with
          final_response := some (r ++ "\n\n" ++ get_disclaimer (some t)),
          safety_flags := ["disclaimer_added_" ++ t],
          current_node := "safety", next_node := none, status := "complete" } := by
  have hd : get_disclaimer (some t) ≠ "" := get_disclaimer_ne_empty ht
  unfold check_safety
  rw [hfr]
  simp only [if_neg hne, detect_violations, hharm, ht, Option.isSome_some, pyOptStr]
  simp [hd]

/-- Evaluation of `check_safety` on the blocked branch: some harmful
keyword found. -/
lemma check_safety_blocked_eq (llm : LLM) (st : SState) (r k : String)
    (hfr : st.final_response = some r) (hne : r ≠ "")
    (hk : harmfulKeywords.find? (fun kw => pySubstr kw (pyLower r)) = some k) :
    check_safety llm st =
      { st with
          final_response := some harmfulFallback,
          safety_flags := ["blocked", "harmful_content_" ++ k],
          current_node := "safety", next_node := none, status := "complete" } := by
  have hmem : k ∈ harmfulKeywords := List.mem_of_find?_eq_some hk
  have hfb :
      get_safe_fallback
        { block_response := true, needs_disclaimer := false, tone_adjustment := false,
          vtype := none, reason := some ("harmful_content_" ++ k) } = harmfulFallback := by
    simp only [harmfulKeywords, List.mem_cons, List.not_mem_nil, or_false] at hmem
    rcases hmem with rfl | rfl | rfl | rfl | rfl | rfl | rfl | rfl | rfl | rfl | rfl | rfl <;>
      decide
  unfold check_safety
  rw [hfr]
  simp only [if_neg hne, detect_violations, hk, hfb, Option.getD]
  simp

/-- A generative-model oracle whose every call raises. -/
def llmErr : LLM := fun _ => Except.error "model unavailable"

/-- C1 (amended): when no harmful keyword is present and at least one
advice domain triggers, the Safety Gate appends exactly one disclaimer
— that of the LAST triggering domain in the fixed check order medical,
financial, legal, exercise (each later check overwrites the earlier
type selection) — and flags it. -/
theorem c1_single_disclaimer_last_domain (llm : LLM) (st : SState) (r t : String)
    (hfr : st.final_response = some r) (hne : r ≠ "")
    (hharm : harmfulKeywords.find? (fun k => pySubstr k (pyLower r)) = none)
    (ht : lastTriggered (pyLower r) = some t) :
    (check_safety llm st).final_response = some (r ++ "\n\n" ++ get_disclaimer (some t)) ∧
      (check_safety llm st).safety_flags = ["disclaimer_added_" ++ t] := by
  rw [check_safety_disclaimer_eq llm st r t hfr hne hharm ht]
  exact ⟨rfl, rfl⟩

/-- C1 counterexample: a response carrying both medical triggers
("medicine"/"cure"/"pain" with "take this") and financial triggers
("buy"/"stocks" with "buy") gets the FINANCIAL disclaimer appended, not
the medical one, contradicting the claimed medical-first precedence. -/
theorem c1_counterexample :
    medicalTriggers (pyLower "take this medicine to cure pain, and buy stocks") = true ∧
    financialTriggers (pyLower "take this medicine to cure pain, and buy stocks") = true ∧
    (check_safety llmErr
        ⟨some "take this medicine to cure pain, and buy stocks", [], "", some "safety",
         "processing", none⟩).final_response
      = some ("take this medicine to cure pain, and buy stocks" ++ "\n\n" ++ financialDisclaimer) ∧
    (check_safety llmErr
        ⟨some "take this medicine to cure pain, and buy stocks", [], "", some "safety",
         "processing", none⟩).safety_flags = ["disclaimer_added_financial"] ∧
    financialDisclaimer ≠ medicalDisclaimer := by
  refine ⟨by decide, by decide, ?_, ?_, by decide⟩ <;>
    · rw [check_safety_disclaimer_eq llmErr _ "take this medicine to cure pain, and buy stocks"
        "financial" rfl (by decide) (by decide) (by decide)]
      rfl

/-- C1 witness: the amended theorem applied at the mixed
medical-and-financial response. -/
theorem c1_witness :
    (check_safety llmErr
        ⟨some "take this medicine to cure pain, and buy stocks", [], "", some "safety",
         "processing", none⟩).final_response
      = some ("take this medicine to cure pain, and buy stocks" ++ "\n\n"
          ++ get_disclaimer (some "financial")) ∧
    (check_safety llmErr
        ⟨some "take this medicine to cure pain, and buy stocks", [], "", some "safety",
         "processing", none⟩).safety_flags = ["disclaimer_added_" ++ "financial"] :=
  c1_single_disclaimer_last_domain llmErr _ "take this medicine to cure pain, and buy stocks"
    "financial" rfl (by decide) (by decide) (by decide)

/-- C2 (amended): every response containing a harmful keyword is
replaced by the crisis-resource redirect and flagged blocked — for ALL
harmful triggers, not only self-harm ones, because the violation reason
is always `harmful_content_<keyword>` and `_get_safe_fallback` tests
`"harmful" in reason` first, so its generic-refusal branch is
unreachable for harmful blocks. -/
theorem c2_blocked_always_crisis_redirect (llm : LLM) (st : SState) (r k : String)
    (hfr : st.final_response = some r) (hne : r ≠ "")
    (hk : harmfulKeywords.find? (fun kw => pySubstr kw (pyLower r)) = some k) :
    (check_safety llm st).final_response = some harmfulFallback ∧
      (check_safety llm st).safety_flags = ["blocked", "harmful_content_" ++ k] ∧
      harmfulFallback ≠ genericFallback := by
  rw [check_safety_blocked_eq llm st r k hfr hne hk]
  exact ⟨rfl, rfl, by decide⟩

/-- C2 counterexample: a violence trigger — which the claim says gets
the generic refusal — is replaced by the crisis-resource redirect, not
the generic refusal. -/
theorem c2_counterexample :
    (check_safety llmErr
        ⟨some "there is violence here", [], "", some "safety", "processing",
         none⟩).final_response = some harmfulFallback ∧
    (check_safety llmErr
        ⟨some "there is violence here", [], "", some "safety", "processing",
         none⟩).safety_flags = ["blocked", "harmful_content_violence"] ∧
    harmfulFallback ≠ genericFallback := by
  rw [check_safety_blocked_eq llmErr _ "there is violence here" "violence" rfl
    (by decide) (by decide)]
  exact ⟨rfl, rfl, by decide⟩

/-- C2 witness: the amended theorem applied at a weapons trigger. -/
theorem c2_witness :
    (check_safety llmErr
        ⟨some "weapons of war", [], "", some "safety", "processing",
         none⟩).final_response = some harmfulFallback ∧
    (check_safety llmErr
        ⟨some "weapons of war", [], "", some "safety", "processing",
         none⟩).safety_flags = ["blocked", "harmful_content_" ++ "weapon"] ∧
    harmfulFallback ≠ genericFallback :=
  c2_blocked_always_crisis_redirect llmErr _ "weapons of war" "weapon" rfl
    (by decide) (by decide)

/-- C9: harmful-keyword detection is raw substring containment on the
lowercased response — any response whose text merely CONTAINS a
harmful-list keyword (e.g. "die" inside "diet") is blocked and replaced
by a refusal template. -/
theorem c9_substring_blocking (llm : LLM) (st : SState) (r : String)
    (hfr : st.final_response = some r) (hne : r ≠ "")
    (hany : harmfulKeywords.any (fun kw => pySubstr kw (pyLower r)) = true) :
    (check_safety llm st).final_response = some harmfulFallback ∧
      "blocked" ∈ (check_safety llm st).safety_flags := by
  have hs : (harmfulKeywords.find? (fun kw => pySubstr kw (pyLower r))).isSome := by
    rw [List.find?_isSome]
    simpa using hany
  obtain ⟨k, hk⟩ := Option.isSome_iff_exists.mp hs
  rw [check_safety_blocked_eq llm st r k hfr hne hk]
  exact ⟨rfl, by simp⟩

/-- C9 witness: "diet" contains no harmful word, yet the "die" keyword
matches as a substring and the response is blocked. -/
theorem c9_witness :
    (check_safety llmErr
        ⟨some "Try this healthy diet plan", [], "", some "safety", "processing",
         none⟩).final_response = some harmfulFallback ∧
    "blocked" ∈ (check_safety llmErr
        ⟨some "Try this healthy diet plan", [], "", some "safety", "processing",
         none⟩).safety_flags :=
  c9_substring_blocking llmErr _ "Try this healthy diet plan" rfl (by decide) (by decide)

/-- C3 (amended): on every branch where the `final_response` key is
present — block, disclaimer, tone repair, pass-through, empty-response
short-circuit — the Safety Gate terminates the turn with
`status = "complete"`, clears `next_node`, and leaves `final_response`
populated.  But when its own check raises internally (missing
`final_response` key), the `except` clause only records `error` and a
`safety_check_failed` flag and leaves `status` UNCHANGED — it neither
completes nor errors the status. -/
theorem c3_terminal_status (llm : LLM) (st : SState) :
    (∀ r, st.final_response = some r →
        (check_safety llm st).status = "complete" ∧
        (check_safety llm st).next_node = none ∧
        (check_safety llm st).current_node = "safety" ∧
        (check_safety llm st).final_response.isSome = true) ∧
    (st.final_response = none →
        (check_safety llm st).status = st.status ∧
        (check_safety llm st).safety_flags = ["safety_check_failed"] ∧
        (check_safety llm st).error = some "Safety check failed: \x27final_response\x27") := by
  constructor
  · intro r hfr
    unfold check_safety
    rw [hfr]
    by_cases hr : r = ""
    · simp [hr]
    · simp only [if_neg hr]
      split_ifs <;> simp
  · intro h
    unfold check_safety
    rw [h]
    exact ⟨rfl, rfl, rfl⟩

/-- C3 counterexample: a state whose `final_response` key is missing
makes `check_safety` raise internally; the returned state keeps
`status = "processing"` — neither "complete" (contradicting the claim
that the gate always completes) nor "error". -/
theorem c3_counterexample :
    (check_safety llmErr ⟨none, [], "", some "safety", "processing", none⟩).status
      = "processing" ∧
    (check_safety llmErr ⟨none, [], "", some "safety", "processing", none⟩).status
      ≠ "complete" ∧
    (check_safety llmErr ⟨none, [], "", some "safety", "processing", none⟩).status
      ≠ "error" ∧
    (check_safety llmErr ⟨none, [], "", some "safety", "processing", none⟩).error
      = some "Safety check failed: \x27final_response\x27" :=
  ⟨rfl, by decide, by decide, rfl⟩

/-- C3 witness: the amended theorem applied to a populated state (the
gate completes) and to the key-missing state (the gate only flags). -/
theorem c3_witness :
    ((check_safety llmErr ⟨some "hello", [], "", some "safety", "processing", none⟩).status
        = "complete" ∧
      (check_safety llmErr ⟨some "hello", [], "", some "safety", "processing", none⟩).next_node
        = none) ∧
    (check_safety llmErr ⟨none, [], "", some "safety", "processing", none⟩).safety_flags
      = ["safety_check_failed"] :=
  ⟨⟨((c3_terminal_status llmErr _).1 "hello" rfl).1,
    ((c3_terminal_status llmErr _).1 "hello" rfl).2.1⟩,
   ((c3_terminal_status llmErr _).2 rfl).2.1⟩

/-- Evaluation of `check_safety` on the empty-response short-circuit. -/
lemma check_safety_empty_eq (llm : LLM) (st : SState)
    (hfr : st.final_response = some "") :
    check_safety llm st =
      { st with safety_flags := ["empty_response"],
                current_node := "safety", next_node := none, status := "complete" } := by
  unfold check_safety
  rw [hfr]
  simp

/-- Evaluation of `check_safety` on the tone-repair branch. -/
lemma check_safety_tone_eq (llm : LLM) (st : SState) (r : String)
    (hfr : st.final_response = some r) (hne : r ≠ "")
    (hharm : harmfulKeywords.find? (fun k => pySubstr k (pyLower r)) = none)
    (ht : lastTriggered (pyLower r) = none) (htone : check_tone r = true) :
    check_safety llm st =
      { st with final_response := some (adjust_tone llm r),
                safety_flags := ["tone_adjusted"],
                current_node := "safety", next_node := none, status := "complete" } := by
  unfold check_safety
  rw [hfr]
  simp only [if_neg hne, detect_violations, hharm, ht, htone]
  simp

/-- Evaluation of `check_safety` on the pass-through branch. -/
lemma check_safety_safe_eq (llm : LLM) (st : SState) (r : String)
    (hfr : st.final_response = some r) (hne : r ≠ "")
    (hharm : harmfulKeywords.find? (fun k => pySubstr k (pyLower r)) = none)
    (ht : lastTriggered (pyLower r) = none) (htone : check_tone r = false) :
    check_safety llm st =
      { st with safety_flags := ["safe"],
                current_node := "safety", next_node := none, status := "complete" } := by
  unfold check_safety
  rw [hfr]
  simp only [if_neg hne, detect_violations, hharm, ht, htone]
  simp

/-- A domain cannot trigger a disclaimer when none of its advice
indicators occurs in the response. -/
lemma triggers_false_of_no_indicator {kws inds : List String} {low : String}
    (h : inds.all (fun i => !pySubstr i low) = true) :
    (kws.any (fun k => pySubstr k low) && inds.any (fun i => pySubstr i low)) = false := by
  have hind : inds.any (fun i => pySubstr i low) = false := by
    simp only [List.any_eq_false]
    intro x hx
    simp only [List.all_eq_true, Bool.not_eq_true'] at h
    simp [h x hx]
  simp [hind]

/-- C7 (amended): a response with a medical topic keyword and a medical
advice indicator ends with the medical disclaimer PROVIDED no harmful
keyword is present and no later-checked domain (financial, legal,
exercise) also triggers — a later domain overwrites the medical
selection; and a response containing no advice-indicator phrase of any
domain never gets any disclaimer appended. -/
theorem c7_medical_disclaimer_scope :
    (∀ (llm : LLM) (st : SState) (r : String),
        st.final_response = some r → r ≠ "" →
        harmfulKeywords.find? (fun k => pySubstr k (pyLower r)) = none →
        medicalTriggers (pyLower r) = true →
        financialTriggers (pyLower r) = false →
        legalTriggers (pyLower r) = false →
        exerciseTriggers (pyLower r) = false →
        (check_safety llm st).final_response = some (r ++ "\n\n" ++ medicalDisclaimer) ∧
          (check_safety llm st).safety_flags = ["disclaimer_added_medical"]) ∧
    (∀ (llm : LLM) (st : SState) (r : String),
        st.final_response = some r →
        medicalAdviceIndicators.all (fun i => !pySubstr i (pyLower r)) = true →
        financialAdviceIndicators.all (fun i => !pySubstr i (pyLower r)) = true →
        legalAdviceIndicators.all (fun i => !pySubstr i (pyLower r)) = true →
        exerciseAdviceIndicators.all (fun i => !pySubstr i (pyLower r)) = true →
        (check_safety llm st).safety_flags.any
            (fun f => "disclaimer_added_".data.isPrefixOf f.data) = false) := by
  constructor
  · intro llm st r hfr hne hharm hmed hfin hleg hex
    have ht : lastTriggered (pyLower r) = some "medical" := by
      simp [lastTriggered, hex, hleg, hfin, hmed]
    rw [check_safety_disclaimer_eq llm st r "medical" hfr hne hharm ht]
    exact ⟨rfl, rfl⟩
  · intro llm st r hfr h1 h2 h3 h4
    have hm : medicalTriggers (pyLower r) = false := by
      unfold medicalTriggers; exact triggers_false_of_no_indicator h1
    have hf : financialTriggers (pyLower r) = false := by
      unfold financialTriggers; exact triggers_false_of_no_indicator h2
    have hl : legalTriggers (pyLower r) = false := by
      unfold legalTriggers; exact triggers_false_of_no_indicator h3
    have he : exerciseTriggers (pyLower r) = false := by
      unfold exerciseTriggers; exact triggers_false_of_no_indicator h4
    have ht : lastTriggered (pyLower r) = none := by
      simp [lastTriggered, hm, hf, hl, he]
    by_cases hr : r = ""
    · subst hr
      rw [check_safety_empty_eq llm st hfr]
      rfl
    · cases hfind : harmfulKeywords.find? (fun k => pySubstr k (pyLower r)) with
      | some k =>
        rw [check_safety_blocked_eq llm st r k hfr hr hfind]
        have hmem : k ∈ harmfulKeywords := List.mem_of_find?_eq_some hfind
        simp only [harmfulKeywords, List.mem_cons, List.not_mem_nil, or_false] at hmem
        rcases hmem with rfl | rfl | rfl | rfl | rfl | rfl | rfl | rfl | rfl | rfl | rfl | rfl <;>
          rfl
      | none =>
        by_cases htone : check_tone r
        · rw [check_safety_tone_eq llm st r hfr hr hfind ht htone]
          rfl
        · rw [check_safety_safe_eq llm st r hfr hr hfind ht
            (Bool.not_eq_true _ ▸ htone)]
          rfl

/-- C7 counterexample: a response with both a medical keyword
("medicine") and medical advice indicators ("you should", "take this")
does NOT end with the medical disclaimer — the later financial check
("buy", "stocks") overwrites the selection and the financial disclaimer
is appended instead. -/
theorem c7_counterexample :
    medicalKeywords.any
        (fun k => pySubstr k (pyLower "you should take this medicine and buy stocks")) = true ∧
    medicalAdviceIndicators.any
        (fun i => pySubstr i (pyLower "you should take this medicine and buy stocks")) = true ∧
    (check_safety llmErr
        ⟨some "you should take this medicine and buy stocks", [], "", some "safety",
         "processing", none⟩).final_response
      = some ("you should take this medicine and buy stocks" ++ "\n\n" ++ financialDisclaimer) ∧
    medicalDisclaimer.data.isSuffixOf
        ("you should take this medicine and buy stocks" ++ "\n\n" ++ financialDisclaimer).data
      = false := by
  refine ⟨by decide, by decide, ?_, by decide⟩
  rw [check_safety_disclaimer_eq llmErr _ "you should take this medicine and buy stocks"
    "financial" rfl (by decide) (by decide) (by decide)]
  rfl

/-- C7 witness: the amended theorem applied to a purely medical advice
response (medical disclaimer appended) and to an advice-free response
(no disclaimer flag). -/
theorem c7_witness :
    ((check_safety llmErr
        ⟨some "you should take this medicine", [], "", some "safety", "processing",
         none⟩).final_response
      = some ("you should take this medicine" ++ "\n\n" ++ medicalDisclaimer) ∧
    (check_safety llmErr
        ⟨some "you should take this medicine", [], "", some "safety", "processing",
         none⟩).safety_flags = ["disclaimer_added_medical"]) ∧
    (check_safety llmErr
        ⟨some "the weather is nice", [], "", some "safety", "processing",
         none⟩).safety_flags.any
        (fun f => "disclaimer_added_".data.isPrefixOf f.data) = false :=
  ⟨c7_medical_disclaimer_scope.1 llmErr _ "you should take this medicine" rfl (by decide)
      (by decide) (by decide) (by decide) (by decide) (by decide),
   c7_medical_disclaimer_scope.2 llmErr _ "the weather is nice" rfl (by decide) (by decide)
      (by decide) (by decide)⟩

/-- C4 (amended): after the Router, `next_node` is the retrieval stage
iff the selected namespace list is non-empty AND does not contain
"general" — NOT "iff any non-general namespace was chosen".  The two
readings differ exactly on the fixed holistic multi-namespace set
`["meditation", "relationships", "general"]`, which contains "general"
and therefore routes directly to the generation stage. -/
theorem c4_next_node_rule (content : String) (st st' : RState)
    (h : route (Except.ok content) st = Except.ok st') :
    ((st'.next_node = some "librarian") ↔
      (st'.selected_namespaces ≠ [] ∧ "general" ∉ st'.selected_namespaces)) ∧
    (holisticHit st.user_message = true →
      st'.selected_namespaces = ["meditation", "relationships", "general"] ∧
      st'.next_node = some "interpreter") := by
  simp only [route, Except.ok.injEq] at h
  subst h
  constructor
  · dsimp only
    by_cases h1 : (select_namespaces (parse_response content).1 (parse_response content).2
        st.user_message).isEmpty
    · rw [List.isEmpty_iff] at h1
      simp [h1]
    · have h1' : (select_namespaces (parse_response content).1 (parse_response content).2
          st.user_message).isEmpty = false := by simpa using h1
      by_cases h2 : "general" ∈ select_namespaces (parse_response content).1
          (parse_response content).2 st.user_message
      · have hc : (select_namespaces (parse_response content).1 (parse_response content).2
            st.user_message).contains "general" = true := by simp [h2]
        simp [hc, h2]
      · have hc : (select_namespaces (parse_response content).1 (parse_response content).2
            st.user_message).contains "general" = false := by simp [h2]
        simp [h1', hc, List.isEmpty_eq_false.mp h1', h2]
  · intro hh
    unfold holisticHit at hh
    dsimp only
    unfold select_namespaces
    simp only [hh]
    exact ⟨rfl, rfl⟩

/-- C4 counterexample: the message "work life balance" takes the
holistic branch; the chosen set contains the non-general namespaces
"meditation" and "relationships", yet `next_node` is the generation
stage "interpreter", not "librarian" as the claim requires. -/
theorem c4_counterexample :
    route (Except.ok "hello") ⟨"work life balance", none, 0, [], "", none⟩
      = Except.ok ⟨"work life balance", some "general", 1/2,
          ["meditation", "relationships", "general"], "router", some "interpreter"⟩ ∧
    "meditation" ∈ ["meditation", "relationships", "general"] ∧
    "meditation" ≠ "general" :=
  ⟨rfl, by decide, by decide⟩

/-- C4 witness: the amended theorem applied to a holistic-keyword
message — the fixed multi-namespace set is selected and routing goes to
the interpreter. -/
theorem c4_witness :
    (⟨"wellness tips", some "general", 1/2, ["meditation", "relationships", "general"],
        "router", some "interpreter"⟩ : RState).selected_namespaces
      = ["meditation", "relationships", "general"] ∧
    (⟨"wellness tips", some "general", 1/2, ["meditation", "relationships", "general"],
        "router", some "interpreter"⟩ : RState).next_node = some "interpreter" :=
  (c4_next_node_rule "ok" ⟨"wellness tips", none, 0, [], "", none⟩
    ⟨"wellness tips", some "general", 1/2, ["meditation", "relationships", "general"],
     "router", some "interpreter"⟩ rfl).2 (by decide)

/-- C5 (amended): only PARSE failures are recovered with the
`general`/0.5 defaults — the model call of the Router itself is not guarded,
so a generative-model exception propagates out of `route` (to the
outer handler of the orchestrator) instead of producing a routing decision. -/
theorem c5_router_failure_handling :
    (∀ (st : RState) (e : String), route (Except.error e) st = Except.error e) ∧
    (∀ (st : RState) (content : String) (st' : RState),
        route (Except.ok content) st = Except.ok st' →
        intentSearch content = none → confSearch content = none →
        st'.intent = some "general" ∧ st'.confidence = 1/2) ∧
    (∀ (st : RState) (content : String) (st' : RState) (run : List Char),
        route (Except.ok content) st = Except.ok st' →
        confSearch content = some run → pyFloat run = none →
        st'.intent = some "general" ∧ st'.confidence = 1/2) := by
  refine ⟨fun st e => rfl, ?_, ?_⟩
  · intro st content st' h hi hc
    simp only [route, Except.ok.injEq] at h
    subst h
    simp [parse_response, hi, hc]
  · intro st content st' run h hc hf
    simp only [route, Except.ok.injEq] at h
    subst h
    simp [parse_response, hc, hf]

/-- C5 counterexample: a failing model call propagates out of `route`
as an exception — no state with intent "general" and confidence 0.5 is
returned. -/
theorem c5_counterexample :
    route (Except.error "connection failed") ⟨"any question", none, 0, [], "", none⟩
      = Except.error "connection failed" := rfl

/-- C5 witness: the amended theorem applied to an unparseable model
reply — the defaults `general`/0.5 are returned. -/
theorem c5_witness :
    (⟨"balance in life", some "general", 1/2, ["meditation", "relationships", "general"],
        "router", some "interpreter"⟩ : RState).intent = some "general" ∧
    (⟨"balance in life", some "general", 1/2, ["meditation", "relationships", "general"],
        "router", some "interpreter"⟩ : RState).confidence = 1/2 :=
  c5_router_failure_handling.2.1 ⟨"balance in life", none, 0, [], "", none⟩
    "I cannot classify this"
    ⟨"balance in life", some "general", 1/2, ["meditation", "relationships", "general"],
     "router", some "interpreter"⟩ rfl rfl rfl

/-- A fold whose every step either keeps the accumulator or appends one
element not already present preserves `Nodup`. -/
lemma foldl_dedup_nodup {α β : Type} (f : List α → β → List α)
    (hf : ∀ cs b, f cs b = cs ∨ ∃ x, x ∉ cs ∧ f cs b = cs ++ [x]) :
    ∀ (l : List β) (acc : List α), acc.Nodup → (l.foldl f acc).Nodup := by
  intro l
  induction l with
  | nil => intro acc h; exact h
  | cons b bs ih =>
    intro acc h
    simp only [List.foldl_cons]
    apply ih
    rcases hf acc b with heq | ⟨x, hx, heq⟩
    · rw [heq]; exact h
    · rw [heq]
      refine List.Nodup.append h (List.nodup_singleton x) ?_
      intro a ha hb
      rw [List.mem_singleton] at hb
      subst hb
      exact hx ha

/-- C6 (amended): each citation list is duplicate-free under ITS OWN
structural equality — the Interpreter list by the four fields
{title, url, youtube_url, timestamp}, the Librarian list by the three
fields {title, url, timestamp} (it has no youtube_url field and takes
url from source_url only) — but the two derivations do not apply the
same rule and can deduplicate the same chunk list differently. -/
theorem c6_citation_lists_nodup (chunks : List Chunk) :
    (interp_extract_citations chunks).Nodup ∧ (libr_extract_citations chunks).Nodup := by
  constructor
  · apply foldl_dedup_nodup _ _ chunks [] List.nodup_nil
    intro cs c
    dsimp only
    by_cases h1 : truthy c.metadata.source_title
    · simp only [h1, if_true]
      by_cases h2 :
          (⟨c.metadata.source_title.getD "",
            if c.metadata.youtube_url.getD "" = "" then c.metadata.source_url.getD ""
            else c.metadata.youtube_url.getD "",
            c.metadata.youtube_url.getD "", c.metadata.timestamp.getD ""⟩ : Citation4) ∈ cs
      · left; simp [h2]
      · right; exact ⟨_, h2, by simp [h2]⟩
    · left; simp [h1]
  · apply foldl_dedup_nodup _ _ chunks [] List.nodup_nil
    intro cs c
    dsimp only
    by_cases h1 : truthy c.metadata.source_title
    · simp only [h1, if_true]
      by_cases h2 :
          (⟨c.metadata.source_title.getD "", c.metadata.source_url.getD "",
            c.metadata.timestamp.getD ""⟩ : Citation3) ∈ cs
      · left; simp [h2]
      · right; exact ⟨_, h2, by simp [h2]⟩
    · left; simp [h1]

/-- C6 counterexample: two chunks identical except for `youtube_url`
deduplicate DIFFERENTLY under the two derivations — the Librarian
collapses them to one citation while the Interpreter keeps two — so the
derivations do not apply the same dedup rule. -/
theorem c6_counterexample :
    (libr_extract_citations
        [⟨"text a", 0, ⟨some "Talk", some "http://s", some "http://y1", some "1:00"⟩⟩,
         ⟨"text b", 0, ⟨some "Talk", some "http://s", some "http://y2", some "1:00"⟩⟩]).length
      = 1 ∧
    (interp_extract_citations
        [⟨"text a", 0, ⟨some "Talk", some "http://s", some "http://y1", some "1:00"⟩⟩,
         ⟨"text b", 0, ⟨some "Talk", some "http://s", some "http://y2", some "1:00"⟩⟩]).length
      = 2 := by
  exact ⟨rfl, rfl⟩

/-- C8 (amended): for an empty retrieved-chunk list (and a non-meta
question) the Interpreter invokes the generative model with the strict
grounding prompt built over the fixed context marker "No relevant
context found in the knowledge base." — whose system message orders the
model to return the fixed no-information sentence — and the final
response is whatever the model replies, verbatim, with empty citations;
the code does not itself enforce the fixed sentence. -/
theorem c8_empty_chunks_model_reply (llm : LLM) (kb : KBResult) (streaming : Bool)
    (st : IState) (c : String)
    (hkb : is_knowledge_base_query st.user_message = false)
    (hchunks : st.retrieved_chunks = [])
    (hllm : llm (build_interpretation_prompt st.user_message noContextMarker) = Except.ok c) :
    (interpret llm kb streaming st).final_response = c ∧
      (interpret llm kb streaming st).citations = [] := by
  unfold interpret
  rw [hkb, hchunks]
  simp only [build_context, List.isEmpty_nil, if_true, hllm]
  cases streaming <;> simp [interp_extract_citations]

/-- C8 counterexample: with an uncooperative model the final response
for an empty chunk list is the raw model reply, not the fixed
no-information sentence the claim requires. -/
theorem c8_counterexample :
    (interpret (fun _ => Except.ok "hello") (Except.error "down") true
        ⟨"Tell me about tea", [], [], "", [], "", none, none⟩).final_response = "hello" ∧
    "hello" ≠ noInfoSentence :=
  ⟨rfl, by decide⟩

/-- C8 witness: the amended theorem applied to a model that follows the
instruction — the fixed sentence is then indeed the final response. -/
theorem c8_witness :
    (interpret (fun _ => Except.ok noInfoSentence) (Except.error "down") true
        ⟨"Tell me about tea", [], [], "", [], "", none, none⟩).final_response
      = noInfoSentence ∧
    (interpret (fun _ => Except.ok noInfoSentence) (Except.error "down") true
        ⟨"Tell me about tea", [], [], "", [], "", none, none⟩).citations = [] :=
  c8_empty_chunks_model_reply (fun _ => Except.ok noInfoSentence) (Except.error "down") true
    ⟨"Tell me about tea", [], [], "", [], "", none, none⟩ noInfoSentence
    (by decide) rfl rfl

/-- C10: a user message containing one of the fixed meta-question
substrings (including "what can you tell me about") short-circuits
`interpret` before context construction: citations are empty, and the
final response is independent of the generative model and of the
retrieved chunks for that turn. -/
theorem c10_kb_query_short_circuit (llm : LLM) (kb : KBResult) (streaming : Bool)
    (st : IState)
    (h : is_knowledge_base_query st.user_message = true) :
    (interpret llm kb streaming st).citations = [] ∧
    (∀ (llm2 : LLM) (chunks2 : List Chunk),
        (interpret llm2 kb streaming { st with retrieved_chunks := chunks2 }).final_response
          = (interpret llm kb streaming st).final_response) := by
  unfold interpret
  simp only [h, if_true]
  constructor
  · unfold handle_knowledge_base_query
    cases kb with
    | error e => rfl
    | ok cols =>
      by_cases hd : (cols.filter (fun c => pyStartsWith "documents_" c.name)).isEmpty <;>
        simp [hd]
  · intro llm2 chunks2
    unfold handle_knowledge_base_query
    cases kb with
    | error e => rfl
    | ok cols =>
      by_cases hd : (cols.filter (fun c => pyStartsWith "documents_" c.name)).isEmpty <;>
        simp [hd]

/-- C10 witness: the theorem applied to a "what can you tell me about"
message with a non-empty chunk list: citations are empty and the final
response matches the run with no chunks and a different model. -/
theorem c10_witness :
    (interpret llmErr (Except.error "down") true
        ⟨"What can you tell me about balance?",
         [⟨"t", 0, ⟨some "T", none, none, none⟩⟩], [], "", [], "", none, none⟩).citations
      = [] ∧
    (interpret (fun _ => Except.ok "ignored") (Except.error "down") true
        ⟨"What can you tell me about balance?", [], [], "", [], "", none, none⟩).final_response
      = (interpret llmErr (Except.error "down") true
          ⟨"What can you tell me about balance?",
           [⟨"t", 0, ⟨some "T", none, none, none⟩⟩], [], "", [], "", none, none⟩).final_response :=
  ⟨(c10_kb_query_short_circuit llmErr (Except.error "down") true
      ⟨"What can you tell me about balance?",
       [⟨"t", 0, ⟨some "T", none, none, none⟩⟩], [], "", [], "", none, none⟩ (by decide)).1,
   (c10_kb_query_short_circuit llmErr (Except.error "down") true
      ⟨"What can you tell me about balance?",
       [⟨"t", 0, ⟨some "T", none, none, none⟩⟩], [], "", [], "", none, none⟩ (by decide)).2
     (fun _ => Except.ok "ignored") []⟩
